import Mathlib

/-!
Verification of the program in src/client.py (dusktop)

A shallow embedding of the single source file `src/client.py`, a Python 2
interactive TCP line client, together with theorems settling the frozen
claims about its specification.

The embedding follows the source statement by statement:

* `parsePyInt` models Python's `int(arg)` on a string: strip surrounding
  whitespace, optional sign, a non-empty run of decimal digits; anything
  else raises `ValueError`, modelled by `none`.
* `scanPort` / `portNumber` model the argument-scanning loop
  (`for arg in sys.argv: ...` with `break` on the first in-range value,
  default `1050`).
* `loopBody` / `runLoop` model one iteration / the whole `while True:`
  interactive loop, driven by an environment giving each iteration's
  console-read result, send result and pending socket bytes.
* `runHandler` models the bare `except:` handler body (the Python 2 print
  statement evaluating its items left to right, then `exit(0)`).
* `clientProgram` / `execTop` / `clientRun` model the module-level
  statement sequence, with `exit` truncating execution.
-/

/-- Leading-whitespace strip on a character list (used to model the
whitespace stripping Python's `int` applies to its string argument). -/
def dropWs : List Char → List Char
  | [] => []
  | c :: cs => if c.isWhitespace then dropWs cs else c :: cs

/-- Strip whitespace from both ends of a character list. -/
def stripWs (cs : List Char) : List Char :=
  (dropWs (dropWs cs).reverse).reverse

/-- The value of a non-empty run of decimal digits; `none` when the list is
empty or holds a non-digit (Python's `int` raises `ValueError` there). -/
def digitsToNat : List Char → Option Nat
  | [] => none
  | c :: cs =>
    if (c :: cs).all Char.isDigit then
      some ((c :: cs).foldl (fun a d => a * 10 + (d.toNat - 48)) 0)
    else none

/-- Model of Python 2 `int(arg)` for a string argument: surrounding
whitespace is stripped, an optional `+`/`-` sign precedes a non-empty
digit run; `none` models the `ValueError` raised otherwise. -/
def parsePyInt (s : String) : Option Int :=
  match stripWs s.data with
  | '+' :: rest => (digitsToNat rest).map (fun n => (n : Int))
  | '-' :: rest => (digitsToNat rest).map (fun n => -(n : Int))
  | cs => (digitsToNat cs).map (fun n => (n : Int))

/-- The argument-scanning loop of `client.py` lines 4-11: try `int(arg)`;
on success, if `0 <= arg <= 65535` set the port and `break`; a
`ValueError` is passed over; an out-of-range value continues the scan. -/
def scanPort : List String → Int → Int
  | [], port => port
  | a :: rest, port =>
    match parsePyInt a with
    | some v => if 0 ≤ v ∧ v ≤ 65535 then v else scanPort rest port
    | none => scanPort rest port

/-- The value of portNumber after the scan, starting from the default `1050`
(`client.py` line 3). -/
def portNumber (argv : List String) : Int :=
  scanPort argv 1050

/-- An argument the scan accepts: it parses as an integer in `[0, 65535]`. -/
def validPortArg (s : String) : Bool :=
  match parsePyInt s with
  | some v => decide (0 ≤ v ∧ v ≤ 65535)
  | none => false

/-- An argument the scan rejects is skipped without changing the state. -/
theorem scanPort_skip (b : String) (l : List String) (port : Int)
    (hb : validPortArg b = false) :
    scanPort (b :: l) port = scanPort l port := by
  cases hpb : parsePyInt b with
  | none => simp [scanPort, hpb]
  | some v =>
    have hv : ¬(0 ≤ v ∧ v ≤ 65535) := by
      unfold validPortArg at hb
      rw [hpb] at hb
      simpa using hb
    simp [scanPort, hpb, hv]

/-- A prefix of rejected arguments is skipped whole. -/
theorem scanPort_skip_many (pre l : List String) (port : Int)
    (hpre : ∀ b ∈ pre, validPortArg b = false) :
    scanPort (pre ++ l) port = scanPort l port := by
  induction pre with
  | nil => rfl
  | cons b bs ih =>
    have hb : validPortArg b = false := hpre b (List.mem_cons_self b bs)
    have hbs : ∀ x ∈ bs, validPortArg x = false :=
      fun x hx => hpre x (List.mem_cons_of_mem b hx)
    simpa [scanPort_skip b (bs ++ l) port hb] using ih hbs

/-- The scan stops at an accepted argument, returning its value. -/
theorem scanPort_stop (a : String) (l : List String) (port : Int) (v : Int)
    (ha : parsePyInt a = some v) (h0 : 0 ≤ v) (h1 : v ≤ 65535) :
    scanPort (a :: l) port = v := by
  unfold scanPort
  rw [ha]
  simp [h0, h1]

/-- C2: for every argument list containing at least one string that
parses as an integer in `[0, 65535]`, the resolved port number equals the
first such value in argument order; scanning stops there (the suffix is
arbitrary), and non-numeric or out-of-range arguments before it do not
affect the result. -/
theorem first_valid_arg_selected (pre suf : List String) (a : String) (v : Int)
    (hpre : ∀ b ∈ pre, validPortArg b = false)
    (ha : parsePyInt a = some v) (h0 : 0 ≤ v) (h1 : v ≤ 65535) :
    portNumber (pre ++ a :: suf) = v := by
  unfold portNumber
  rw [scanPort_skip_many pre (a :: suf) 1050 hpre]
  exact scanPort_stop a suf 1050 v ha h0 h1

/-- Witness for C2 at the concrete argument list
`["client.py", "foo", "99999", "8080", "22"]`: the script name, a
non-numeric argument and an out-of-range one precede the first valid
value `8080`, which is selected. -/
theorem first_valid_arg_selected_witness :
    portNumber ["client.py", "foo", "99999", "8080", "22"] = 8080 :=
  first_valid_arg_selected ["client.py", "foo", "99999"] ["22"] "8080" 8080
    (by decide) (by decide) (by decide) (by decide)

/-- C3, counterexample: for the argument list `["3", "5"]`, holding two
distinct integers in range, the resolved port is the earlier value `3`,
not the later `5` the claim selects. -/
theorem last_valid_arg_counterexample :
    portNumber ["3", "5"] = 3 ∧ portNumber ["3", "5"] ≠ 5 := by
  constructor
  · decide
  · decide

/-- C3, amended: the resolved port number is set by the *first* valid
integer-valued argument found when scanning in order; in particular, for a
list containing two valid integers, the earlier one is selected and the
later one is ignored. -/
theorem first_of_two_valid_selected (pre mid suf : List String)
    (a b : String) (va vb : Int)
    (hpre : ∀ x ∈ pre, validPortArg x = false)
    (ha : parsePyInt a = some va) (ha0 : 0 ≤ va) (ha1 : va ≤ 65535)
    (_hb : parsePyInt b = some vb) (_hb0 : 0 ≤ vb) (_hb1 : vb ≤ 65535) :
    portNumber (pre ++ a :: (mid ++ b :: suf)) = va := by
  unfold portNumber
  rw [scanPort_skip_many pre (a :: (mid ++ b :: suf)) 1050 hpre]
  exact scanPort_stop a (mid ++ b :: suf) 1050 va ha ha0 ha1

/-- Witness for the amended C3 at `["3", "5"]`: the earlier value `3` is
selected over the later `5`. -/
theorem first_of_two_valid_selected_witness :
    portNumber ["3", "5"] = 3 :=
  first_of_two_valid_selected [] [] [] "3" "5" 3 5
    (by decide) (by decide) (by decide) (by decide)
    (by decide) (by decide) (by decide)

/-- C4: for every argument list in which no string parses as an integer
in `[0, 65535]` (the empty list included), the resolved port number is the
default `1050`. -/
theorem no_valid_arg_default (argv : List String)
    (h : ∀ b ∈ argv, validPortArg b = false) :
    portNumber argv = 1050 := by
  have := scanPort_skip_many argv [] 1050 h
  simpa [portNumber] using this

/-- Witness for C4 at `["client.py", "foo", "-1", "70000"]`: a non-numeric
argument, a negative value and an out-of-range value are all rejected and
the port stays `1050`. -/
theorem no_valid_arg_default_witness :
    portNumber ["client.py", "foo", "-1", "70000"] = 1050 :=
  no_valid_arg_default ["client.py", "foo", "-1", "70000"] (by decide)

/-! The exception handler model: (`client.py` lines 26-28)

The `while` loop's bare `except:` clause binds no exception variable; its
body is the Python 2 print statement
`print "Client experienced error ", e.errno, ": ", e.strerror, "."`
followed by `exit(0)`. A Python 2 print statement evaluates and emits its
items left to right, so evaluation of the unbound name `e` decides how far
the message gets. -/

/-- Python exceptions the embedding distinguishes. -/
inductive PyExc
  | nameError (n : String)
  | ioError (errno : Int) (strerror : String)
  | eofError
deriving DecidableEq, Repr

/-- An exception-like object carrying the `errno` and `strerror` attributes
the handler's print statement reads. -/
structure PyExcObj where
  errno : Int
  strerror : String
deriving DecidableEq, Repr

/-- One item of the handler's print statement: a string literal, or an
attribute read (`.errno` / `.strerror`) off a named variable. -/
inductive HItem
  | lit (s : String)
  | attrOfName (n : String) (attr : String)
deriving DecidableEq, Repr

/-- The items of `print "Client experienced error ", e.errno, ": ",
e.strerror, "."` (line 27), in source order. -/
def handlerBody : List HItem :=
  [HItem.lit "Client experienced error ",
   HItem.attrOfName "e" "errno",
   HItem.lit ": ",
   HItem.attrOfName "e" "strerror",
   HItem.lit "."]

/-- Name lookup inside the handler. The bare `except:` clause binds no
exception variable, and no name in scope (`socket`, `sys`, `portNumber`,
`arg`, `s`, `msg`) is bound to an exception object — in particular `e` is
unbound, so every lookup of an exception object fails. -/
def handlerLookup (_n : String) : Option PyExcObj := none

/-- Evaluate and emit the print statement's items left to right; an unbound
name raises `NameError` there, discarding the remaining items. Returns the
strings emitted and the exception raised mid-statement, if any. -/
def runPrintItems (lookup : String → Option PyExcObj) :
    List HItem → List String × Option PyExc
  | [] => ([], none)
  | HItem.lit s :: rest =>
    let r := runPrintItems lookup rest
    (s :: r.1, r.2)
  | HItem.attrOfName n a :: rest =>
    match lookup n with
    | none => ([], some (PyExc.nameError n))
    | some obj =>
      let r := runPrintItems lookup rest
      ((if a = "errno" then toString obj.errno else obj.strerror) :: r.1, r.2)

/-- The exit status passed by the handler's `exit(0)` call (line 28). -/
def handlerExitCode : Nat := 0

/-- How the handler's body ends: the `exit(0)` call, or an exception raised
by the print statement itself. -/
inductive HandlerEnd
  | exited (code : Nat)
  | raised (exc : PyExc)
deriving DecidableEq, Repr

/-- Run the handler body: the print statement, then `exit(handlerExitCode)`
— reached only if the print statement raised nothing. Returns the strings
printed and how the handler ended. -/
def runHandler : List String × HandlerEnd :=
  let r := runPrintItems handlerLookup handlerBody
  match r.2 with
  | some exc => (r.1, HandlerEnd.raised exc)
  | none => (r.1, HandlerEnd.exited handlerExitCode)

/-! The interactive loop model: (`client.py` lines 17-28)

Each iteration is driven by an environment giving the console-read result,
the send result, whether `recv` raises, and the bytes pending on the
socket. `recv(1024)` returns at most its byte-budget argument from the
pending stream. -/

/-- The environment one loop iteration observes. -/
structure IterEnv where
  readResult : Except PyExc String
  sendResult : Except PyExc Nat
  recvErr : Option PyExc
  pending : List Char

/-- Model of s.recv(n): at most n bytes of the pending stream. -/
def pyRecv (n : Nat) (pending : List Char) : List Char :=
  pending.take n

/-- Observable events of a loop iteration: the `"> "` prompt, the bytes
handed to `s.send`, a printed string, the raw received bytes printed. -/
inductive Ev
  | promptEv
  | sendEv (payload : String)
  | printEv (s : String)
  | printRaw (bs : List Char)
deriving DecidableEq, Repr

/-- Control outcome of one iteration of the `try:` body. -/
inductive Ctl
  | brk
  | cont
  | caught (exc : PyExc)
deriving DecidableEq, Repr

/-- One iteration of the loop body (lines 19-25): prompt and read a line;
an empty line breaks; otherwise send the line with `"\n"` appended, then
`print s.recv(1024)`; any exception from read, send or recv is caught. -/
def loopBody (env : IterEnv) : List Ev × Ctl :=
  match env.readResult with
  | Except.error ex => ([Ev.promptEv], Ctl.caught ex)
  | Except.ok msg =>
    if msg.length = 0 then ([Ev.promptEv], Ctl.brk)
    else
      match env.sendResult with
      | Except.error ex => ([Ev.promptEv], Ctl.caught ex)
      | Except.ok _ =>
        match env.recvErr with
        | some ex => ([Ev.promptEv, Ev.sendEv (msg ++ "\n")], Ctl.caught ex)
        | none =>
          ([Ev.promptEv, Ev.sendEv (msg ++ "\n"),
            Ev.printRaw (pyRecv 1024 env.pending)], Ctl.cont)

/-- How the `while True:` loop ends: `break` on an empty line; the except
handler ran (after which the process is gone, by `exit` or by the
handler's own exception); or the supplied environment ran out while the
loop was still going (the process blocks on the next console read). -/
inductive LoopEnd
  | normal
  | errored
  | blocked
deriving DecidableEq, Repr

/-- Run the loop over a list of per-iteration environments, collecting
events. A caught exception runs the handler, whose printed strings appear
as events; the loop then ends `errored`. -/
def runLoop : List IterEnv → List Ev × LoopEnd
  | [] => ([], LoopEnd.blocked)
  | env :: rest =>
    match loopBody env with
    | (evs, Ctl.brk) => (evs, LoopEnd.normal)
    | (evs, Ctl.caught _) => (evs ++ runHandler.1.map Ev.printEv, LoopEnd.errored)
    | (evs, Ctl.cont) => (evs ++ (runLoop rest).1, (runLoop rest).2)

/-- The loop followed by the statement after it, `print "Client connection
terminated"` (line 30), which runs only when the loop exits via `break`. -/
def runLoopAndFinish (envs : List IterEnv) : List Ev × LoopEnd :=
  match runLoop envs with
  | (evs, LoopEnd.normal) =>
    (evs ++ [Ev.printEv "Client connection terminated"], LoopEnd.normal)
  | (evs, LoopEnd.errored) => (evs, LoopEnd.errored)
  | (evs, LoopEnd.blocked) => (evs, LoopEnd.blocked)

/-! The module-level statement sequence (client.py lines 13-30). The
`print portNumber ; exit(0)` compound on line 14 contributes two
statements; `exit` truncates execution, so later statements run only if
no earlier `exit` was reached. -/

/-- The module-level statements after the argument scan, in source order:
socket creation carries no observable event and is elided; then
`print portNumber`, `exit(0)`, `s.connect(("127.0.0.1", portNumber))`,
the `while True:` loop, and the final print. -/
inductive TopStmt
  | sPrintPort
  | sExit (code : Nat)
  | sConnect (host : String)
  | sLoop
  | sPrintMsg (m : String)
deriving DecidableEq, Repr

/-- The statement list of `client.py` lines 14-30. -/
def clientProgram : List TopStmt :=
  [TopStmt.sPrintPort, TopStmt.sExit 0, TopStmt.sConnect "127.0.0.1",
   TopStmt.sLoop, TopStmt.sPrintMsg "Client connection terminated"]

/-- Observable top-level events of a run. -/
inductive TopEv
  | printPortEv (p : Int)
  | exitEv (code : Nat)
  | connectEv (host : String) (port : Int)
  | loopEv (e : Ev)
  | printMsgEv (m : String)
deriving DecidableEq, Repr

/-- Execute a statement list: `exit` records its status and drops the rest;
the loop's events are embedded, and statements after the loop run only when
the loop ended via `break`; a loop that errored or blocked never yields
control back to the statement list. -/
def execTop (argv : List String) (envs : List IterEnv) : List TopStmt → List TopEv
  | [] => []
  | TopStmt.sPrintPort :: rest =>
    TopEv.printPortEv (portNumber argv) :: execTop argv envs rest
  | TopStmt.sExit c :: _ => [TopEv.exitEv c]
  | TopStmt.sConnect h :: rest =>
    TopEv.connectEv h (portNumber argv) :: execTop argv envs rest
  | TopStmt.sLoop :: rest =>
    (runLoop envs).1.map TopEv.loopEv ++
      (match (runLoop envs).2 with
       | LoopEnd.normal => execTop argv envs rest
       | LoopEnd.errored => []
       | LoopEnd.blocked => [])
  | TopStmt.sPrintMsg m :: rest => TopEv.printMsgEv m :: execTop argv envs rest

/-- A full run of `client.py` after the argument scan. -/
def clientRun (argv : List String) (envs : List IterEnv) : List TopEv :=
  execTop argv envs clientProgram

/-- Every run prints the resolved port and hits the `exit(0)` on line 14. -/
theorem clientRun_eq (argv : List String) (envs : List IterEnv) :
    clientRun argv envs = [TopEv.printPortEv (portNumber argv), TopEv.exitEv 0] :=
  rfl

/-- Events that would show the connect step or the interactive loop ran. -/
def connectOrLoopEv : TopEv → Bool
  | TopEv.connectEv _ _ => true
  | TopEv.loopEv _ => true
  | TopEv.printMsgEv _ => true
  | _ => false

/-- C1: every run, whatever the argument list and however the environment
would answer the loop, consists of printing the resolved port number and
the immediate `exit(0)` right after it; no connect, loop or
post-loop event ever occurs. -/
theorem early_exit_kills_connect_and_loop (argv : List String) (envs : List IterEnv) :
    clientRun argv envs = [TopEv.printPortEv (portNumber argv), TopEv.exitEv 0] ∧
    (clientRun argv envs).countP connectOrLoopEv = 0 :=
  ⟨clientRun_eq argv envs, by rw [clientRun_eq]; rfl⟩

/-- A continuing iteration contributes its events and defers the outcome. -/
theorem runLoop_cons_cont (e : IterEnv) (l : List IterEnv)
    (h : (loopBody e).2 = Ctl.cont) :
    runLoop (e :: l) = ((loopBody e).1 ++ (runLoop l).1, (runLoop l).2) := by
  have hb : loopBody e = ((loopBody e).1, Ctl.cont) := by
    rw [← h]
  simp only [runLoop]
  rw [hb]

/-- Iterations that all continue only prepend events: the loop's outcome is
decided by what follows them. -/
theorem runLoop_skip_cont (pre l : List IterEnv)
    (hpre : ∀ e ∈ pre, (loopBody e).2 = Ctl.cont) :
    ∃ evs, runLoop (pre ++ l) = (evs ++ (runLoop l).1, (runLoop l).2) := by
  induction pre with
  | nil => exact ⟨[], by simp⟩
  | cons e es ih =>
    obtain ⟨evs, hevs⟩ := ih (fun x hx => hpre x (List.mem_cons_of_mem e hx))
    refine ⟨(loopBody e).1 ++ evs, ?_⟩
    rw [List.cons_append,
      runLoop_cons_cont e (es ++ l) (hpre e (List.mem_cons_self e es)), hevs]
    simp [List.append_assoc]

/-- C6: whenever the console line read in an iteration of the loop has zero
length (reached after any number of iterations that continued), that
iteration sends nothing and breaks, the loop ends via the normal path, and
the connection-terminated message is printed. -/
theorem empty_line_normal_exit (pre : List IterEnv) (env : IterEnv)
    (rest : List IterEnv)
    (hpre : ∀ e ∈ pre, (loopBody e).2 = Ctl.cont)
    (hread : env.readResult = Except.ok "") :
    loopBody env = ([Ev.promptEv], Ctl.brk) ∧
    (runLoopAndFinish (pre ++ env :: rest)).2 = LoopEnd.normal ∧
    Ev.printEv "Client connection terminated" ∈
      (runLoopAndFinish (pre ++ env :: rest)).1 := by
  have hbody : loopBody env = ([Ev.promptEv], Ctl.brk) := by
    unfold loopBody
    rw [hread]
    rfl
  have hcons : runLoop (env :: rest) = ([Ev.promptEv], LoopEnd.normal) := by
    simp only [runLoop]
    rw [hbody]
  obtain ⟨evs, hevs⟩ := runLoop_skip_cont pre (env :: rest) hpre
  rw [hcons] at hevs
  have hfin : runLoopAndFinish (pre ++ env :: rest) =
      ((evs ++ [Ev.promptEv]) ++ [Ev.printEv "Client connection terminated"],
        LoopEnd.normal) := by
    unfold runLoopAndFinish
    rw [hevs]
  refine ⟨hbody, ?_, ?_⟩
  · rw [hfin]
  · rw [hfin]
    simp

/-- A first-iteration environment whose console read yields the empty line. -/
def emptyLineEnv : IterEnv :=
  ⟨Except.ok "", Except.ok 0, none, []⟩

/-- Witness for C6: with the empty line read on the first iteration, the
iteration only prompts and breaks, and the termination message is printed. -/
theorem empty_line_normal_exit_witness :
    loopBody emptyLineEnv = ([Ev.promptEv], Ctl.brk) ∧
    (runLoopAndFinish ([] ++ emptyLineEnv :: [])).2 = LoopEnd.normal ∧
    Ev.printEv "Client connection terminated" ∈
      (runLoopAndFinish ([] ++ emptyLineEnv :: [])).1 :=
  empty_line_normal_exit [] emptyLineEnv [] (by simp) rfl

/-- C7: for every non-empty console line the iteration sends, the payload
handed to `s.send` is exactly the line followed by one `"\n"`, and no other
send happens in that iteration. -/
theorem send_appends_newline (env : IterEnv) (msg : String) (n : Nat)
    (hread : env.readResult = Except.ok msg) (hne : msg.length ≠ 0)
    (hsend : env.sendResult = Except.ok n) :
    Ev.sendEv (msg ++ "\n") ∈ (loopBody env).1 ∧
    ∀ p, Ev.sendEv p ∈ (loopBody env).1 → p = msg ++ "\n" := by
  simp only [loopBody, hread, hsend]
  rw [if_neg hne]
  cases env.recvErr with
  | some ex => exact ⟨by simp, fun p hp => by simpa using hp⟩
  | none => exact ⟨by simp, fun p hp => by simpa using hp⟩

/-- An iteration environment: line `"hi"` read, send succeeds, two bytes
pending on the socket. -/
def sendEnv : IterEnv :=
  ⟨Except.ok "hi", Except.ok 3, none, ['o', 'k']⟩

/-- Witness for C7: reading `"hi"` sends exactly the bytes of `"hi" ++ "\n"`. -/
theorem send_appends_newline_witness :
    Ev.sendEv ("hi" ++ "\n") ∈ (loopBody sendEnv).1 ∧
    ∀ p, Ev.sendEv p ∈ (loopBody sendEnv).1 → p = "hi" ++ "\n" :=
  send_appends_newline sendEnv "hi" 3 rfl (by decide) rfl

/-- C8: an iteration that reaches the receive step performs one
`recv(1024)` call, prints its raw result, and reads at most 1024 bytes; a
pending response longer than 1024 bytes is not printed whole in that
iteration. -/
theorem recv_at_most_chunk (env : IterEnv) (msg : String) (n : Nat)
    (hread : env.readResult = Except.ok msg) (hne : msg.length ≠ 0)
    (hsend : env.sendResult = Except.ok n) (hrecv : env.recvErr = none) :
    (loopBody env).1 =
      [Ev.promptEv, Ev.sendEv (msg ++ "\n"),
        Ev.printRaw (pyRecv 1024 env.pending)] ∧
    (pyRecv 1024 env.pending).length ≤ 1024 ∧
    (1024 < env.pending.length → pyRecv 1024 env.pending ≠ env.pending) := by
  refine ⟨?_, ?_, ?_⟩
  · simp only [loopBody, hread, hsend, hrecv]
    rw [if_neg hne]
  · unfold pyRecv
    rw [List.length_take]
    exact Nat.min_le_left _ _
  · intro hlen heq
    have hl := congrArg List.length heq
    unfold pyRecv at hl
    rw [List.length_take] at hl
    omega

/-- An iteration environment with 2000 bytes pending on the socket. -/
def truncEnv : IterEnv :=
  ⟨Except.ok "hi", Except.ok 3, none, List.replicate 2000 'a'⟩

/-- Witness for C8 at a 2000-byte pending response: one chunk of at most
1024 bytes is printed and the response is truncated. -/
theorem recv_at_most_chunk_witness :
    (loopBody truncEnv).1 =
      [Ev.promptEv, Ev.sendEv ("hi" ++ "\n"),
        Ev.printRaw (pyRecv 1024 truncEnv.pending)] ∧
    (pyRecv 1024 truncEnv.pending).length ≤ 1024 ∧
    (1024 < truncEnv.pending.length →
      pyRecv 1024 truncEnv.pending ≠ truncEnv.pending) :=
  recv_at_most_chunk truncEnv "hi" 3 rfl (by decide) rfl rfl

/-- The exit statuses of the two explicit exit calls in the source: the
`exit(0)` on line 14 (the only `sExit` statement) and the handler's
`exit(0)` on line 28. -/
def exitCodesInSource : List Nat :=
  (clientProgram.filterMap fun st =>
    match st with
    | TopStmt.sExit c => some c
    | _ => none) ++ [handlerExitCode]

/-- C9: both explicit exit calls in the program pass status 0, and every
exit event any run can reach carries status 0 — no path distinguishes
failure from success by exit status. -/
theorem explicit_exits_all_zero :
    exitCodesInSource = [0, 0] ∧
    ∀ (argv : List String) (envs : List IterEnv) (c : Nat),
      TopEv.exitEv c ∈ clientRun argv envs → c = 0 := by
  refine ⟨rfl, fun argv envs c h => ?_⟩
  rw [clientRun_eq] at h
  simpa using h

/-- A first-iteration environment in which the receive call raises: the
peer reset the connection. -/
def recvFailEnv : IterEnv :=
  ⟨Except.ok "hello", Except.ok 6,
    some (PyExc.ioError 104 "Connection reset by peer"), []⟩

/-- C5, code evaluation at the failing input: when the receive call raises,
the handler runs but prints only the literal message opening, no error
code or description; the loop ends on the error path with the process
dying from the handler's own exception rather than its exit call. -/
theorem error_path_prints_opening_only :
    runLoopAndFinish [recvFailEnv] =
      ([Ev.promptEv, Ev.sendEv ("hello" ++ "\n"),
        Ev.printEv "Client experienced error "], LoopEnd.errored) := by
  decide

/-- C10: the handler's print statement evaluates the unbound name `e` and
raises `NameError`, so the handler prints only the opening literal — never
a complete message with code and description — and its `exit(0)` is
unreachable: the handler ends raised, not exited. -/
theorem handler_nameerror_unreachable_exit :
    runHandler.1 = ["Client experienced error "] ∧
    runHandler.2 = HandlerEnd.raised (PyExc.nameError "e") ∧
    ∀ c, runHandler.2 ≠ HandlerEnd.exited c := by
  refine ⟨rfl, rfl, fun c h => ?_⟩
  rw [show runHandler.2 = HandlerEnd.raised (PyExc.nameError "e") from rfl] at h
  exact HandlerEnd.noConfusion h
